import Mathlib

/-!
Shallow embedding of the core logic of the local print-agent
(`AndroidPrintAgent` in the repository's main agent file): the
ESC/POS text encoder `convertToESCPOS`, the protocol dispatch router
`printWithProtocol`, the broadcast-discovery reply handler inside
`discoverByBroadcast`, and the result-merging step of `discoverPrinters`.

Text is represented as `List Char` (JavaScript strings are sequences of
UTF-16 code units; every character appearing in the agent is in the BMP,
so one `Char` per code unit is faithful).  The byte stream eventually
written to the socket with encoding `'binary'` (latin1) is the list of
code points truncated to one byte, modelled by `toBytes`.
-/

/-- ESC control character `'\x1B'` as defined at the top of `convertToESCPOS`. -/
def ESC : Char := '\x1B'

/-- GS control character `'\x1D'` as defined at the top of `convertToESCPOS`. -/
def GS : Char := '\x1D'

/-- Model of JavaScript `String.prototype.includes` restricted to the use in
`convertToESCPOS`: `startsWithSub needle hay` is true when `needle` is a
leading run of `hay`. -/
def startsWithSub : List Char → List Char → Bool
  | [], _ => true
  | _ :: _, [] => false
  | n :: ns, h :: hs => n == h && startsWithSub ns hs

/-- Model of JavaScript `hay.includes(needle)`: substring containment. -/
def includesSub (needle : List Char) : List Char → Bool
  | [] => needle.isEmpty
  | h :: hs => startsWithSub needle (h :: hs) || includesSub needle hs

/-- The `turkishMap` table of `convertToESCPOS`, in the source's entry order:
each Turkish character is replaced by a single CP857 codepage byte value. -/
def turkishMap : List (Char × Char) :=
  [ ('ç', '\x87'), ('Ç', '\x80'),
    ('ğ', '\x83'), ('Ğ', '\xA6'),
    ('ı', '\x8D'), ('İ', '\x98'),
    ('ö', '\x94'), ('Ö', '\x99'),
    ('ş', '\x9F'), ('Ş', '\x9E'),
    ('ü', '\x81'), ('Ü', '\x9A') ]

/-- The whole-string substitution pass of `convertToESCPOS`: one global
single-character regex replacement per `turkishMap` entry, applied in the
source's entry order (`processedText.replace(new RegExp(turkish, 'g'), encoded)`). -/
def applyTurkishMap (text : List Char) : List Char :=
  turkishMap.foldl (fun acc kv => acc.map fun c => if c = kv.1 then kv.2 else c) text

/-- Model of JavaScript `text.split('\n')`: splitting on every newline,
with `"".split('\n') = [""]` (one empty segment). -/
def splitNl : List Char → List (List Char)
  | [] => [[]]
  | c :: rest =>
    if c = '\n' then [] :: splitNl rest
    else
      match splitNl rest with
      | [] => [[c]]
      | l :: ls => (c :: l) :: ls

/-- The title classification test of `convertToESCPOS`:
`line.includes('ISTANBUL RESTAURANT')`. -/
def matchTitle (line : List Char) : Bool :=
  includesSub "ISTANBUL RESTAURANT".data line

/-- The total-due classification test of `convertToESCPOS`:
`line.includes('TOPLAM:')`. -/
def matchTotal (line : List Char) : Bool :=
  includesSub "TOPLAM:".data line

/-- The separator-rule classification test of `convertToESCPOS`:
`line.includes('===')`. -/
def matchRule (line : List Char) : Bool :=
  includesSub "===".data line

/-- The control codes emitted around a title line by `convertToESCPOS`
(center, emphasize on, double size before; emphasize off, normal size after). -/
def bracketTitle (line : List Char) : List Char :=
  [ESC, 'a', '\x01'] ++ [ESC, 'E', '\x01'] ++ [GS, '!', '\x11'] ++
    line ++ ['\n'] ++ [ESC, 'E', '\x00'] ++ [GS, '!', '\x00']

/-- The control codes emitted around a total-due line by `convertToESCPOS`. -/
def bracketTotal (line : List Char) : List Char :=
  [ESC, 'E', '\x01'] ++ [GS, '!', '\x10'] ++
    line ++ ['\n'] ++ [ESC, 'E', '\x00'] ++ [GS, '!', '\x00']

/-- The control codes emitted around a separator-rule line by `convertToESCPOS`
(center on before, center off after). -/
def bracketRule (line : List Char) : List Char :=
  [ESC, 'a', '\x01'] ++ line ++ ['\n'] ++ [ESC, 'a', '\x00']

/-- The body of the per-line loop of `convertToESCPOS`: an if/else-if chain
testing the title, total and rule patterns in that order; an unmatched line is
emitted as the line followed by a newline. -/
def encodeLine (line : List Char) : List Char :=
  if matchTitle line then bracketTitle line
  else if matchTotal line then bracketTotal line
  else if matchRule line then bracketRule line
  else line ++ ['\n']

/-- The three opening control codes of `convertToESCPOS`:
`ESC @` (initialize), `ESC t 0x12` (codepage select), `ESC R 0x12`
(international charset select). -/
def escposInit : List Char :=
  [ESC, '@', ESC, 't', '\x12', ESC, 'R', '\x12']

/-- The closing paper-cut control code of `convertToESCPOS`: `GS V 0x00`. -/
def escposCut : List Char :=
  [GS, 'V', '\x00']

/-- The `convertToESCPOS` method of the agent: opening codes, a Turkish
character substitution pass over the whole text, newline segmentation, the
per-line classification loop, and the closing paper-cut code. -/
def convertToESCPOS (text : List Char) : List Char :=
  escposInit ++ ((splitNl (applyTurkishMap text)).map encodeLine).flatten ++ escposCut

/-- The byte stream obtained when the encoder output is written with
encoding `'binary'` (latin1): each code point truncated to one byte. -/
def toBytes (l : List Char) : List Nat :=
  l.map fun c => c.toNat % 256

/-- C3: for every text input, the encoder's byte output starts with the fixed
three-code initialization sequence (initialize, codepage-select,
charset-select) and ends with the fixed paper-cut code; the four codes are
emitted unconditionally, independent of the input's content. -/
theorem convertToESCPOS_framing (text : List Char) :
    ∃ body, toBytes (convertToESCPOS text) =
      toBytes escposInit ++ body ++ toBytes escposCut := by
  refine ⟨toBytes ((splitNl (applyTurkishMap text)).map encodeLine).flatten, ?_⟩
  simp [convertToESCPOS, toBytes]

/-- C2 counterexample: encoding the empty string does NOT produce only the
four structural control codes — the byte stream is not the initialization
codes followed directly by the cut code (an extra `0x0A` appears between
them, because splitting the empty string on newlines yields one empty line). -/
theorem convertToESCPOS_empty_not_bare :
    toBytes (convertToESCPOS "".data) ≠ toBytes escposInit ++ toBytes escposCut := by
  decide

/-- C2 amended: encoding the empty string produces the three opening control
codes, then a single newline byte (one empty content line), then the
paper-cut code. -/
theorem convertToESCPOS_empty :
    convertToESCPOS "".data = escposInit ++ ['\n'] ++ escposCut := by
  decide

/-- C4: first-match-wins in the fixed priority order title, then total-due,
then separator-rule: a line matching the title pattern and any other pattern
is encoded with only the title bracketing; a line matching total and rule but
not title is encoded with only the total bracketing; a line matching no
pattern is emitted verbatim (with its newline terminator). -/
theorem encodeLine_first_match_wins (line : List Char) :
    (matchTitle line = true ∧ (matchTotal line = true ∨ matchRule line = true) →
      encodeLine line = bracketTitle line) ∧
    (matchTitle line = false ∧ matchTotal line = true ∧ matchRule line = true →
      encodeLine line = bracketTotal line) ∧
    (matchTitle line = false ∧ matchTotal line = false ∧ matchRule line = false →
      encodeLine line = line ++ ['\n']) := by
  refine ⟨fun h => ?_, fun h => ?_, fun h => ?_⟩
  · simp [encodeLine, h.1]
  · simp [encodeLine, h.1, h.2.1]
  · simp [encodeLine, h.1, h.2.1, h.2.2]

/-- Witness for C4: concrete lines matching title+total+rule, total+rule,
and no pattern, encoded exactly as the highest-priority bracketing dictates. -/
theorem encodeLine_first_match_wins_witness :
    matchTitle "ISTANBUL RESTAURANT TOPLAM: ===".data = true ∧
    matchTotal "ISTANBUL RESTAURANT TOPLAM: ===".data = true ∧
    encodeLine "ISTANBUL RESTAURANT TOPLAM: ===".data =
      bracketTitle "ISTANBUL RESTAURANT TOPLAM: ===".data ∧
    encodeLine "TOPLAM: ===".data = bracketTotal "TOPLAM: ===".data ∧
    encodeLine "hello".data = "hello".data ++ ['\n'] :=
  ⟨by decide, by decide,
   (encodeLine_first_match_wins "ISTANBUL RESTAURANT TOPLAM: ===".data).1
     ⟨by decide, Or.inl (by decide)⟩,
   (encodeLine_first_match_wins "TOPLAM: ===".data).2.1
     ⟨by decide, by decide, by decide⟩,
   (encodeLine_first_match_wins "hello".data).2.2
     ⟨by decide, by decide, by decide⟩⟩

/-!
Dispatch router: `printWithProtocol(data, printer, protocol, format)` and its
default-endpoint fallback, which parses `CONFIG.defaultPrinterHost` with
`split(':')`, `host || 'localhost'` and `parseInt(port) || 9100`.
-/

/-- A printer argument as the JS object reaching `printWithProtocol`: every
field may be absent (`undefined`). -/
structure PrinterArg where
  host : Option String
  port : Option Int
  name : Option String
deriving DecidableEq

/-- JavaScript truthiness of an optional string value: `undefined` and the
empty string are falsy. -/
def jsTruthyOptStr : Option String → Bool
  | none => false
  | some s => s != ""

/-- JavaScript `s || d` for strings: the empty string is falsy. -/
def jsOrString (s d : String) : String :=
  if s = "" then d else s

/-- JavaScript `v || d` for an optional number: `undefined`/`NaN` (absent)
and `0` are falsy. -/
def jsOrInt (v : Option Int) (d : Int) : Int :=
  match v with
  | none => d
  | some n => if n = 0 then d else n

/-- Model of JavaScript `s.split(':')` on the character list of `s`;
splitting the empty string yields one empty segment. -/
def splitOnColon : List Char → List (List Char)
  | [] => [[]]
  | c :: rest =>
    if c = ':' then [] :: splitOnColon rest
    else
      match splitOnColon rest with
      | [] => [[c]]
      | l :: ls => (c :: l) :: ls

/-- Everything after the first `':'` of a string, `none` when it has no
`':'` — the spec-side reading "parsed at the first `':'` separator". -/
def firstColonRest : List Char → Option (List Char)
  | [] => none
  | c :: rest => if c = ':' then some rest else firstColonRest rest

/-- Predicate for characters other than `':'`. -/
def notColon (c : Char) : Bool :=
  c != ':'

/-- Whitespace characters skipped by JavaScript `parseInt` (the common ASCII
white space; the exotic Unicode space classes never occur in an address
string and are not modelled). -/
def isJsSpace (c : Char) : Bool :=
  c == ' ' || c == '\t' || c == '\n' || c == '\r' || c == '\x0b' || c == '\x0c'

/-- Accumulates the decimal value of a digit run. -/
def digitsVal : List Char → Nat → Nat
  | [], acc => acc
  | c :: rest, acc => digitsVal rest (acc * 10 + (c.toNat - 48))

/-- Reads the leading decimal-digit run of a string; `none` when there is no
leading digit (JavaScript `NaN`). -/
def parseDigits (l : List Char) : Option Nat :=
  match l.takeWhile Char.isDigit with
  | [] => none
  | ds => some (digitsVal ds 0)

/-- Model of JavaScript `parseInt` (radix 10 forms): skip leading whitespace,
an optional sign, then the maximal leading decimal-digit run; `none` models
`NaN`.  The `0x` radix-detection of the builtin is not modelled (irrelevant
to every claim, which only distinguish number vs `NaN`). -/
def jsParseIntChars (l : List Char) : Option Int :=
  match l.dropWhile isJsSpace with
  | [] => none
  | c :: rest =>
    if c = '-' then (parseDigits rest).map fun n => -(n : Int)
    else if c = '+' then (parseDigits rest).map fun n => (n : Int)
    else (parseDigits (c :: rest)).map fun n => (n : Int)

/-- JavaScript `parseInt(x)` where `x` may be `undefined` (an absent
destructured segment coerces to the string `"undefined"`, which parses to
`NaN`). -/
def jsParseIntOpt : Option (List Char) → Option Int
  | none => none
  | some l => jsParseIntChars l

/-- The fallback branch of `printWithProtocol`: the configured default
printer address is split on `':'`, destructured into its first two segments,
and defaulted with `host || 'localhost'` and `parseInt(port) || 9100`; the
config is named `'system-default'`. -/
def defaultPrinterConfig (defaultPrinterHost : String) : PrinterArg :=
  { host := some (jsOrString (String.mk ((splitOnColon defaultPrinterHost.data).headD [])) "localhost"),
    port := some (jsOrInt (jsParseIntOpt (splitOnColon defaultPrinterHost.data)[1]?) 9100),
    name := some "system-default" }

/-- The endpoint-resolution step at the top of `printWithProtocol`: an
explicit printer with a truthy `host` field is used as-is, anything else
falls back to the parsed default printer address. -/
def resolvePrinter (printer : Option PrinterArg) (defaultPrinterHost : String) : PrinterArg :=
  match printer with
  | some p => if jsTruthyOptStr p.host then p else defaultPrinterConfig defaultPrinterHost
  | none => defaultPrinterConfig defaultPrinterHost

/-- The three transport clients the router can invoke
(`printViaWebSocket`, `printViaRawTCP`, `printViaHTTP`). -/
inductive PrintClient where
  | websocket
  | rawTcp
  | http
deriving DecidableEq

/-- The outcome of the router's selection step: which transport client is
invoked, with exactly the arguments the router passes it.  A dispatch call
that produces no `Dispatch` value (the `Except.error` case) invokes no
client and opens no socket, channel, or request. -/
structure Dispatch where
  client : PrintClient
  data : String
  printer : PrinterArg
  format : String
deriving DecidableEq

/-- Model of JavaScript `s.toLowerCase()`: lower-case every character (for
the ASCII protocol names the agent compares against, `Char.toLower` agrees
with the JS builtin). -/
def jsToLower (s : String) : String :=
  String.mk (s.data.map Char.toLower)

/-- The `printWithProtocol` method of the agent: resolve the printer config,
then select a transport client by `protocol.toLowerCase()` (`'websocket'`;
`'raw'` and `'tcp'` share one case; `'http'`); any other value throws
`Error('Unsupported protocol: ...')` before any I/O, modelled as
`Except.error`. -/
def printWithProtocol (data : String) (printer : Option PrinterArg)
    (protocol format defaultPrinterHost : String) : Except String Dispatch :=
  if jsToLower protocol = "websocket" then
    .ok ⟨.websocket, data, resolvePrinter printer defaultPrinterHost, format⟩
  else if jsToLower protocol = "raw" ∨ jsToLower protocol = "tcp" then
    .ok ⟨.rawTcp, data, resolvePrinter printer defaultPrinterHost, format⟩
  else if jsToLower protocol = "http" then
    .ok ⟨.http, data, resolvePrinter printer defaultPrinterHost, format⟩
  else
    .error ("Unsupported protocol: " ++ protocol)

/-- C6: a dispatch whose protocol (lower-cased) is none of the recognized
transport names `websocket`, `raw`, `tcp`, `http` fails with the
`Unsupported protocol` error, synchronously selecting no transport client —
no socket, channel, or request is represented in the result. -/
theorem printWithProtocol_unknown_protocol (data : String) (printer : Option PrinterArg)
    (protocol format dflt : String)
    (h : jsToLower protocol ∉ (["websocket", "raw", "tcp", "http"] : List String)) :
    printWithProtocol data printer protocol format dflt =
      .error ("Unsupported protocol: " ++ protocol) := by
  simp only [List.mem_cons, List.not_mem_nil, or_false, not_or] at h
  obtain ⟨h1, h2, h3, h4⟩ := h
  simp [printWithProtocol, h1, h2, h3, h4]

/-- Witness for C6: dispatching with the unrecognized protocol `ipp` yields
exactly the `Unsupported protocol` error. -/
theorem printWithProtocol_unknown_protocol_witness :
    jsToLower "ipp" ∉ (["websocket", "raw", "tcp", "http"] : List String) ∧
    printWithProtocol "receipt" none "ipp" "escpos" "192.168.2.38:9100" =
      .error "Unsupported protocol: ipp" :=
  ⟨by decide,
   printWithProtocol_unknown_protocol "receipt" none "ipp" "escpos" "192.168.2.38:9100"
     (by decide)⟩

/-- C9: `raw` and `tcp` are aliases and the comparison is case-insensitive —
any protocol string that lower-cases to `tcp` produces exactly the dispatch
produced by protocol `raw`: the same stream client with the same arguments. -/
theorem printWithProtocol_tcp_raw_alias (data : String) (printer : Option PrinterArg)
    (protocol format dflt : String) (h : jsToLower protocol = "tcp") :
    printWithProtocol data printer protocol format dflt =
      printWithProtocol data printer "raw" format dflt := by
  have hraw : jsToLower "raw" = "raw" := by decide
  unfold printWithProtocol
  rw [h, hraw]
  rw [if_neg (by decide : ¬ ("tcp" : String) = "websocket"),
    if_pos (by decide : ("tcp" : String) = "raw" ∨ ("tcp" : String) = "tcp"),
    if_neg (by decide : ¬ ("raw" : String) = "websocket"),
    if_pos (by decide : ("raw" : String) = "raw" ∨ ("raw" : String) = "tcp")]

/-- Witness for C9: protocol `TCP` (upper case) dispatches identically to
protocol `raw`. -/
theorem printWithProtocol_tcp_raw_alias_witness :
    jsToLower "TCP" = "tcp" ∧
    printWithProtocol "receipt" none "TCP" "escpos" "192.168.2.38:9100" =
      printWithProtocol "receipt" none "raw" "escpos" "192.168.2.38:9100" :=
  ⟨by decide,
   printWithProtocol_tcp_raw_alias "receipt" none "TCP" "escpos" "192.168.2.38:9100"
     (by decide)⟩

/-- `splitOnColon` always yields at least one segment. -/
theorem splitOnColon_ne_nil : ∀ l : List Char, splitOnColon l ≠ []
  | [] => by simp [splitOnColon]
  | c :: rest => by
    simp only [splitOnColon]
    split
    · simp
    · split <;> simp

/-- The first segment of `split(':')` is the text before the first `':'`. -/
theorem splitOnColon_head (l : List Char) :
    (splitOnColon l).headD [] = l.takeWhile notColon := by
  induction l with
  | nil => simp [splitOnColon]
  | cons c rest ih =>
    by_cases hc : c = ':'
    · subst hc
      simp [splitOnColon, List.takeWhile_cons, notColon]
    · have hnc : notColon c = true := by simp [notColon, hc]
      simp only [splitOnColon, if_neg hc, List.takeWhile_cons, hnc, if_true]
      rcases hrec : splitOnColon rest with _ | ⟨l0, ls⟩
      · exact absurd hrec (splitOnColon_ne_nil rest)
      · rw [hrec] at ih
        simp at ih
        simp [ih]

/-- The second segment of `split(':')` is the text between the first and the
second `':'` — the prefix of `firstColonRest` up to the next `':'`. -/
theorem splitOnColon_second (l : List Char) :
    (splitOnColon l)[1]? = (firstColonRest l).map fun r => r.takeWhile notColon := by
  induction l with
  | nil => simp [splitOnColon, firstColonRest]
  | cons c rest ih =>
    by_cases hc : c = ':'
    · subst hc
      simp only [splitOnColon, if_pos rfl, firstColonRest, Option.map_some]
      rcases hrec : splitOnColon rest with _ | ⟨l0, ls⟩
      · exact absurd hrec (splitOnColon_ne_nil rest)
      · have hh := splitOnColon_head rest
        rw [hrec] at hh
        simp at hh
        simp [hh]
    · simp only [splitOnColon, if_neg hc, firstColonRest]
      rcases hrec : splitOnColon rest with _ | ⟨l0, ls⟩
      · exact absurd hrec (splitOnColon_ne_nil rest)
      · rw [hrec] at ih
        simpa using ih

/-- Nested `takeWhile` with a stronger predicate collapses to the stronger one. -/
theorem takeWhile_takeWhile_imp {p q : Char → Bool} (hpq : ∀ c, p c = true → q c = true) :
    ∀ l : List Char, (l.takeWhile q).takeWhile p = l.takeWhile p
  | [] => rfl
  | c :: l => by
    by_cases hq : q c
    · by_cases hp : p c <;>
        simp [List.takeWhile_cons, hq, hp, takeWhile_takeWhile_imp hpq l]
    · have hp : p c = false := by
        cases hpc : p c
        · rfl
        · exact absurd (hpq c hpc) (by simp [hq])
      simp [List.takeWhile_cons, hq, hp]

/-- A decimal digit is not a `':'`. -/
theorem digit_notColon (c : Char) (h : c.isDigit = true) : notColon c = true := by
  by_cases hc : c = ':'
  · subst hc
    exact absurd h (by decide)
  · simp [notColon, hc]

/-- Truncating a string at the first `':'` does not change its leading
digit run. -/
theorem parseDigits_takeWhile (l : List Char) :
    parseDigits (l.takeWhile notColon) = parseDigits l := by
  unfold parseDigits
  rw [takeWhile_takeWhile_imp digit_notColon l]

/-- Leading-whitespace removal commutes with truncation at the first `':'`. -/
theorem dropWhile_takeWhile_comm (l : List Char) :
    (l.takeWhile notColon).dropWhile isJsSpace = (l.dropWhile isJsSpace).takeWhile notColon := by
  induction l with
  | nil => rfl
  | cons c l ih =>
    by_cases hc : notColon c
    · by_cases hs : isJsSpace c
      · simp [List.takeWhile_cons, List.dropWhile_cons, hc, hs, ih]
      · simp [List.takeWhile_cons, List.dropWhile_cons, hc, hs]
    · have hceq : c = ':' := by
        by_cases h : c = ':'
        · exact h
        · exact absurd (by simp [notColon, h] : notColon c = true) (by simpa using hc)
      have hs : isJsSpace c = false := by subst hceq; decide
      simp [List.takeWhile_cons, List.dropWhile_cons, hc, hs]

/-- `parseInt` never reads past a `':'`: parsing the segment before the first
`':'` and parsing the whole remainder give the same value. -/
theorem jsParseIntChars_takeWhile (l : List Char) :
    jsParseIntChars (l.takeWhile notColon) = jsParseIntChars l := by
  unfold jsParseIntChars
  rw [dropWhile_takeWhile_comm]
  rcases hm : l.dropWhile isJsSpace with _ | ⟨c, rest⟩
  · simp
  · by_cases hc : notColon c
    · simp only [List.takeWhile_cons, hc, if_true]
      by_cases h1 : c = '-'
      · simp [h1, parseDigits_takeWhile]
      · by_cases h2 : c = '+'
        · simp [h1, h2, parseDigits_takeWhile]
        · have hcons : (c :: rest).takeWhile notColon = c :: rest.takeWhile notColon := by
            simp [List.takeWhile_cons, hc]
          simp only [h1, h2, if_neg, ite_false]
          rw [← hcons, parseDigits_takeWhile]
    · have hceq : c = ':' := by
        by_cases h : c = ':'
        · exact h
        · exact absurd (by simp [notColon, h] : notColon c = true) (by simpa using hc)
      subst hceq
      have hpd : parseDigits (':' :: rest) = none := by
        unfold parseDigits
        simp [List.takeWhile_cons, (by decide : Char.isDigit ':' = false)]
      simp [List.takeWhile_cons, notColon, hpd]

/-- The host of the fallback config is the default address up to the first
`':'`, with an empty host replaced by `localhost`. -/
theorem defaultPrinterConfig_host_eq (s : String) :
    (defaultPrinterConfig s).host =
      some (jsOrString (String.mk (s.data.takeWhile notColon)) "localhost") := by
  show some (jsOrString (String.mk ((splitOnColon s.data).headD [])) "localhost") = _
  rw [splitOnColon_head]

/-- C8: a dispatch call carrying no explicit endpoint, or an endpoint whose
`host` field is absent or empty, falls back to the configured default printer
address parsed at the first `':'` separator: the host is the text before the
first `':'` (defaulting to `localhost` when empty), the name is
`system-default`, and the port defaults to `9100` when the address has no
`':'` or when the text after the first `':'` does not parse as a number. -/
theorem resolvePrinter_default_fallback (printer : Option PrinterArg) (s : String)
    (h : printer = none ∨ ∃ p, printer = some p ∧ jsTruthyOptStr p.host = false) :
    (resolvePrinter printer s).host =
        some (jsOrString (String.mk (s.data.takeWhile notColon)) "localhost") ∧
    (resolvePrinter printer s).name = some "system-default" ∧
    (firstColonRest s.data = none → (resolvePrinter printer s).port = some 9100) ∧
    (∀ r, firstColonRest s.data = some r → jsParseIntChars r = none →
        (resolvePrinter printer s).port = some 9100) := by
  have hres : resolvePrinter printer s = defaultPrinterConfig s := by
    rcases h with h | ⟨p, hp, hfalse⟩
    · rw [h]; rfl
    · rw [hp]; simp [resolvePrinter, hfalse]
  rw [hres]
  refine ⟨defaultPrinterConfig_host_eq s, rfl, fun hnone => ?_, fun r hsome hnan => ?_⟩
  · have h2 := splitOnColon_second s.data
    rw [hnone] at h2
    have h2n : (splitOnColon s.data)[1]? = none := h2
    show some (jsOrInt (jsParseIntOpt (splitOnColon s.data)[1]?) 9100) = some 9100
    rw [h2n]
    rfl
  · have h2 := splitOnColon_second s.data
    rw [hsome] at h2
    have h2s : (splitOnColon s.data)[1]? = some (r.takeWhile notColon) := h2
    have hval : jsParseIntChars (r.takeWhile notColon) = none := by
      rw [jsParseIntChars_takeWhile]; exact hnan
    show some (jsOrInt (jsParseIntOpt (splitOnColon s.data)[1]?) 9100) = some 9100
    rw [h2s]
    show some (jsOrInt (jsParseIntChars (r.takeWhile notColon)) 9100) = some 9100
    rw [hval]
    rfl

/-- Witness for C8: with no explicit printer, the default address
`192.168.2.38:9100` resolves to host `192.168.2.38` and name
`system-default`; an address without `':'` and an address with a
non-numeric port both resolve to port `9100`. -/
theorem resolvePrinter_default_fallback_witness :
    (resolvePrinter none "192.168.2.38:9100").host = some "192.168.2.38" ∧
    (resolvePrinter none "192.168.2.38:9100").name = some "system-default" ∧
    (resolvePrinter none "printerhost").port = some 9100 ∧
    (resolvePrinter none "myhost:abc").port = some 9100 :=
  ⟨(resolvePrinter_default_fallback none "192.168.2.38:9100" (Or.inl rfl)).1.trans (by decide),
   (resolvePrinter_default_fallback none "192.168.2.38:9100" (Or.inl rfl)).2.1,
   (resolvePrinter_default_fallback none "printerhost" (Or.inl rfl)).2.2.1 (by decide),
   (resolvePrinter_default_fallback none "myhost:abc" (Or.inl rfl)).2.2.2 "abc".data
     (by decide) (by decide)⟩

/-!
Discovery engine: the per-reply handler of `discoverByBroadcast` and the
strategy-merging step of `discoverPrinters`.
-/

/-- An endpoint record as built by the three discovery strategies
(`discoverByPortScan` / `discoverByCommonAddresses` via `testConnection`,
and `discoverByBroadcast`): the JS object `{host, port, name, type}`. -/
structure Printer where
  host : String
  port : Int
  name : String
  type : String
deriving DecidableEq

/-- The record `testConnection(host, port)` resolves on a successful
connect: name `Printer-host:port`, type `tcp`.  Both the port-scan and the
static-candidate strategies push exactly this record. -/
def testConnectionPrinter (host : String) (port : Int) : Printer :=
  ⟨host, port, "Printer-" ++ host ++ ":" ++ toString port, "tcp"⟩

/-- A single UDP reply as seen by the `message` listener of
`discoverByBroadcast`, already classified by the outcome of
`JSON.parse(msg.toString())`: either a parsed JSON object (with its `type`
field and optional `port`/`name` fields) or a reply whose text fails to
parse as JSON (the `catch` path), carrying its raw text. -/
inductive BroadcastReply where
  | json (type : String) (port : Option Int) (name : Option String)
  | malformed (raw : String)

/-- JavaScript `v || d` for an optional string: `undefined` and the empty
string are falsy. -/
def jsOrOptStr (v : Option String) (d : String) : String :=
  match v with
  | none => d
  | some s => if s = "" then d else s

/-- The body of the `message` listener of `discoverByBroadcast`: a reply
parsed as JSON with `type === 'printer'` is pushed as an endpoint using the
replier's source address as host, `response.port || 9100` and
`response.name || 'Printer-' + rinfo.address`; any other JSON reply is
dropped, and a reply that fails to parse is ignored
(the `catch` comment reads `Ignore non-JSON responses`). -/
def broadcastMessageHandler (msg : BroadcastReply) (rinfoAddress : String) : Option Printer :=
  match msg with
  | .json t p n =>
    if t = "printer" then
      some ⟨rinfoAddress, jsOrInt p 9100, jsOrOptStr n ("Printer-" ++ rinfoAddress), "discovered"⟩
    else
      none
  | .malformed _ => none

/-- The JS `Set` accumulation of `discoverPrinters`: each printer record is
serialized with `JSON.stringify` and added to a set, which keeps the first
occurrence of each distinct serialization in insertion order; since all
strategy records carry the keys `host`, `port`, `name`, `type` in this
order, serialization equality is full-record equality. -/
def dedupFirstAux (seen : List Printer) : List Printer → List Printer
  | [] => []
  | p :: rest =>
    if p ∈ seen then dedupFirstAux seen rest
    else p :: dedupFirstAux (p :: seen) rest

/-- The combination step of `discoverPrinters`: the three strategies'
fulfilled results are added in order (port scan, broadcast, common
addresses) to the stringify-keyed set and read back as a list. -/
def discoverPrinters (scan broadcast common : List Printer) : List Printer :=
  dedupFirstAux [] (scan ++ broadcast ++ common)

/-- Elements of `dedupFirstAux seen l` are the elements of `l` outside `seen`. -/
theorem dedupFirstAux_mem (l : List Printer) : ∀ (seen : List Printer) (x : Printer),
    x ∈ dedupFirstAux seen l ↔ x ∈ l ∧ x ∉ seen := by
  induction l with
  | nil => intro seen x; simp [dedupFirstAux]
  | cons p rest ih =>
    intro seen x
    by_cases hp : p ∈ seen
    · simp only [dedupFirstAux, if_pos hp, ih, List.mem_cons]
      constructor
      · rintro ⟨h1, h2⟩
        exact ⟨Or.inr h1, h2⟩
      · rintro ⟨h1 | h1, h2⟩
        · subst h1; exact absurd hp h2
        · exact ⟨h1, h2⟩
    · simp only [dedupFirstAux, if_neg hp, List.mem_cons, ih]
      constructor
      · rintro (h | ⟨h1, h2⟩)
        · subst h; exact ⟨Or.inl rfl, hp⟩
        · exact ⟨Or.inr h1, fun hs => h2 (Or.inr hs)⟩
      · rintro ⟨h1 | h1, h2⟩
        · subst h1; exact Or.inl rfl
        · by_cases hxp : x = p
          · subst hxp; exact Or.inl rfl
          · refine Or.inr ⟨h1, fun hs => ?_⟩
            rcases hs with h | h
            · exact hxp h
            · exact h2 h

/-- `dedupFirstAux` yields a list without repeated records, none of them in
`seen`. -/
theorem dedupFirstAux_nodup (l : List Printer) : ∀ seen : List Printer,
    (dedupFirstAux seen l).Nodup := by
  induction l with
  | nil => intro seen; simp [dedupFirstAux]
  | cons p rest ih =>
    intro seen
    by_cases hp : p ∈ seen
    · simp only [dedupFirstAux, if_pos hp]
      exact ih seen
    · simp only [dedupFirstAux, if_neg hp]
      refine List.nodup_cons.mpr ⟨fun hx => ?_, ih (p :: seen)⟩
      exact ((dedupFirstAux_mem rest (p :: seen) p).mp hx).2 (List.mem_cons_self p seen)

/-- C1 counterexample: a discovery where the port scan and the broadcast
probe independently find the same `(host, port)` returns BOTH records — the
scan record (`type: tcp`, name `Printer-192.168.1.100:9100`) and the
broadcast record (`type: discovered`, name `Printer-192.168.1.100`) differ
in `name`/`type`, so `JSON.stringify`-based dedup keeps them both; the
result set holds two Endpoints with equal `(host, port)`.  The last
conjunct checks the broadcast record is exactly what the broadcast handler
pushes for a name-less announce from that address. -/
theorem discoverPrinters_duplicate_hostport :
    discoverPrinters [testConnectionPrinter "192.168.1.100" 9100]
        [Printer.mk "192.168.1.100" 9100 "Printer-192.168.1.100" "discovered"] [] =
      [testConnectionPrinter "192.168.1.100" 9100,
       Printer.mk "192.168.1.100" 9100 "Printer-192.168.1.100" "discovered"] ∧
    (testConnectionPrinter "192.168.1.100" 9100).host = "192.168.1.100" ∧
    (testConnectionPrinter "192.168.1.100" 9100).port = 9100 ∧
    testConnectionPrinter "192.168.1.100" 9100 ≠
      Printer.mk "192.168.1.100" 9100 "Printer-192.168.1.100" "discovered" ∧
    broadcastMessageHandler (BroadcastReply.json "printer" (some 9100) none) "192.168.1.100" =
      some (Printer.mk "192.168.1.100" 9100 "Printer-192.168.1.100" "discovered") := by
  refine ⟨by decide, rfl, rfl, by decide, by decide⟩

/-- C1 amended: the merged discovery result deduplicates by equality of the
whole serialized record `(host, port, name, type)` — the result never
contains two fully identical records, and it contains exactly the distinct
records the three strategies produced (first occurrence kept); records equal
on `(host, port)` alone but differing in `name` or `type` are not collapsed. -/
theorem discoverPrinters_dedup_full_records (scan broadcast common : List Printer) :
    (discoverPrinters scan broadcast common).Nodup ∧
    ∀ x, x ∈ discoverPrinters scan broadcast common ↔ x ∈ scan ++ broadcast ++ common := by
  refine ⟨dedupFirstAux_nodup _ [], fun x => ?_⟩
  rw [discoverPrinters, dedupFirstAux_mem]
  simp

/-- C5 counterexample: a reply that fails to parse as JSON and contains the
plain-text printer marker (the agent's own discovery token
`HILFEX_PRINTER_DISCOVERY`) is NOT accepted: the broadcast handler adds no
endpoint for it. -/
theorem broadcast_malformed_marker_ignored :
    includesSub "PRINTER".data "HILFEX_PRINTER_DISCOVERY".data = true ∧
    broadcastMessageHandler (BroadcastReply.malformed "HILFEX_PRINTER_DISCOVERY") "10.0.0.5" =
      none := by
  refine ⟨by decide, rfl⟩

/-- C5 amended: every broadcast reply that fails to parse as JSON is
ignored — no endpoint is ever added for it, whatever its text contains. -/
theorem broadcast_malformed_ignored (raw addr : String) :
    broadcastMessageHandler (BroadcastReply.malformed raw) addr = none :=
  rfl

/-- C10: a JSON reply with `type: 'printer'` but no `port` and no `name`
field yields an endpoint whose host is the replier's source address, whose
port defaults to `9100`, and whose name defaults to `Printer-` followed by
the source address. -/
theorem broadcast_json_defaults (addr : String) :
    broadcastMessageHandler (BroadcastReply.json "printer" none none) addr =
      some ⟨addr, 9100, "Printer-" ++ addr, "discovered"⟩ := by
  simp [broadcastMessageHandler, jsOrInt, jsOrOptStr]
